import Mathlib

/-!
Verification of the monthly statistics / payroll-projection engine of the
time-tracking bot (`src/bot.py`).

The ledger is modelled as a list of rows, each row a list of string cells
(the snapshot returned by `sheet.get_all_values()`, which is a rectangular
grid of strings with row 1 the header).  Python integers are modelled as
`Int`, Python floats as `ℚ` (the float arithmetic here is exact rational
arithmetic on the values involved), Python `//` and `%` as `Int.fdiv` and
`Int.fmod` (floor semantics), and functions that may raise as
`Except String _`.  String scanning is done on `String.data` (the list of
characters) with executable helpers, because the statements below are
settled by evaluating the model on concrete ledger snapshots.
-/

deriving instance DecidableEq for Except

/-! ## Python primitives -/

/-- The numeric value of a non-empty, all-digit character list; `none`
otherwise.  Helper for `pyInt?`. -/
def digitsToNat : List Char → Option Nat
  | [] => none
  | cs =>
    if cs.all Char.isDigit then
      some (cs.foldl (fun a c => a * 10 + (c.toNat - 48)) 0)
    else none

/-- Models Python `int(s)` on a string (given as its character list): an
optional sign followed by at least one decimal digit; anything else raises
`ValueError`, modelled as `none`.  (The ledger data never carries the
whitespace or underscore forms that `int` also tolerates.) -/
def pyInt? : List Char → Option Int
  | '-' :: rest => (digitsToNat rest).map (fun n => -(n : Int))
  | '+' :: rest => (digitsToNat rest).map (fun n => (n : Int))
  | s => (digitsToNat s).map (fun n => (n : Int))

/-- Models Python `s.split(sep)` for a one-character separator: splits at
every occurrence, keeping empty pieces (`"".split(sep) == [""]`).
Auxiliary accumulator version. -/
def splitOnCharAux (sep : Char) : List Char → List Char → List (List Char)
  | [], acc => [acc.reverse]
  | c :: cs, acc =>
    if c = sep then acc.reverse :: splitOnCharAux sep cs []
    else splitOnCharAux sep cs (c :: acc)

/-- Models Python `s.split(sep)` for a one-character separator. -/
def splitOnChar (sep : Char) (s : List Char) : List (List Char) :=
  splitOnCharAux sep s []

/-- Models Python `f"{n:02d}"`: decimal rendering left-padded with `0` to
width 2 (negative numbers keep their sign and are padded to total width 2,
exactly as in Python). -/
def pad2 (n : Int) : String :=
  if 0 ≤ n ∧ n < 10 then "0" ++ toString n else toString n

/-- Models Python `int(x)` on a float value (modelled as `ℚ`): truncation
toward zero. -/
def truncInt (q : ℚ) : Int := q.num.tdiv (q.den : Int)

/-- Models Python `range(1, n + 1)` (as `Int` values): the days iterated by
the business-day loops in `calculate_monthly_stats`. -/
def pyRange1 (n : Int) : List Int :=
  (List.range n.toNat).map (fun k => (Nat.cast k : Int) + 1)

/-! ## The Jalali calendar, as implemented by the `jdatetime` dependency

`bot.py` delegates all calendar arithmetic to the `jdatetime` library.
The definitions below are the relevant parts of that library: the
Jalali → Gregorian conversion (`jdatetime.jalali.JalaliToGregorian`,
the classic farsiweb algorithm, used by `date.togregorian()`), the leap
year test (`jdatetime.date.isleap`, a 33-year cycle), and the month
lengths enforced by the `jdatetime.date` constructor. -/

/-- The `j_days_in_month` table of `jdatetime.jalali`. -/
def j_days_in_month : List Int :=
  [31, 31, 31, 31, 31, 31, 30, 30, 30, 30, 30, 29]

/-- Day count of a Jalali date as computed inside
`jdatetime.jalali.JalaliToGregorian` (`j_day_no`, zero at 979/1/1). -/
def jDayNo (jyear jmonth jday : Int) : Int :=
  let jy := jyear - 979
  let jm := jmonth - 1
  let jd := jday - 1
  365 * jy + (jy.fdiv 33) * 8 + ((jy.fmod 33) + 3).fdiv 4
    + (j_days_in_month.take jm.toNat).sum + jd

/-- The Gregorian year of a Jalali date, following
`jdatetime.jalali.JalaliToGregorian` step by step (`gy` is fixed before
the final month/day loop of that algorithm, so the loop is not needed
for the year). -/
def gregorianYearOfJalali (jyear jmonth jday : Int) : Int :=
  let g_day_no := jDayNo jyear jmonth jday + 79
  let gy := 1600 + 400 * (g_day_no.fdiv 146097)
  let g_day_no := g_day_no.fmod 146097
  let (gy, g_day_no) :=
    if g_day_no ≥ 36525 then
      let g := g_day_no - 1
      let gy := gy + 100 * (g.fdiv 36524)
      let g := g.fmod 36524
      if g ≥ 365 then (gy, g + 1) else (gy, g)
    else (gy, g_day_no)
  let gy := gy + 4 * (g_day_no.fdiv 1461)
  let g_day_no := g_day_no.fmod 1461
  if g_day_no ≥ 366 then gy + (g_day_no - 1).fdiv 365 else gy

/-- Python's `datetime.date.weekday()` (Monday = 0 … Sunday = 6) of the
Gregorian image of a Jalali date.  The conversion maps the date to day
number `jDayNo + 79` counted from 1600-01-01 (a Saturday, weekday 5), so
the weekday is `(jDayNo + 79 + 5) % 7`. -/
def jWeekday (y m d : Int) : Int := (jDayNo y m d + 84).fmod 7

/-- `jdatetime.date.isleap`: the Jalali leap-year rule of the library the
source code itself uses for all calendar work (33-year cycle). -/
def isJalaliLeap (year : Int) : Bool :=
  [1, 5, 9, 13, 17, 22, 26, 30].contains (year.fmod 33)

/-- Length of a Jalali month as enforced by the `jdatetime.date`
constructor (months 1–6: 31 days, 7–11: 30 days, 12: 29, or 30 in a leap
year).  Only meaningful for `1 ≤ month ≤ 12`. -/
def jDaysInMonth (year month : Int) : Int :=
  if month ≤ 6 then 31 else if month ≤ 11 then 30
  else if isJalaliLeap year then 30 else 29

/-- The validity check of the `jdatetime.date(y, m, d)` constructor:
an invalid month or day raises `ValueError`. -/
def jdateValid (y m d : Int) : Bool :=
  1 ≤ m && m ≤ 12 && 1 ≤ d && d ≤ jDaysInMonth y m

/-! ## `get_last_day_of_month` (src/bot.py lines 154–173) -/

/-- `get_last_day_of_month(year, month)` of `bot.py`: month 12 is decided
by `jdatetime.date(year, 12, 29).togregorian().year % 4 == 0` (a Gregorian
`% 4` test), months 1–6 give 31, months 7–11 give 30, anything else raises
`ValueError("Month must be between 1 and 12")`. -/
def get_last_day_of_month (year month : Int) : Except String Int :=
  if month = 12 then
    if (gregorianYearOfJalali year 12 29).fmod 4 = 0 then .ok 30 else .ok 29
  else if 1 ≤ month ∧ month ≤ 6 then .ok 31
  else if 7 ≤ month ∧ month ≤ 11 then .ok 30
  else .error "Month must be between 1 and 12"

/-! ## Row parsing and monthly aggregation (src/bot.py lines 62–95)

`calculate_monthly_stats` scans `all_records[1:]`; a row enters the parse
attempt only if `len(record) >= 5 and record[4] and record[0] and '/' in
record[0]`.  Inside the `try` block the year, month and day parts are
converted with `int` in that order, the day is added to `worked_days` as
soon as the month matches, and only then the duration `record[4]` is
parsed; a `ValueError`/`IndexError` anywhere aborts the rest of the row
but keeps the mutations already made (in particular the day stays in the
set when only the duration fails). -/

/-- The guarded date parse of `calculate_monthly_stats` (lines 69–76):
`some (year, month, day)` when the row reaches the month comparison,
`none` when the row is filtered out or `int` raises first. -/
def dateOf? (record : List String) : Option (Int × Int × Int) :=
  if 5 ≤ record.length ∧ record.getD 4 "" ≠ "" ∧ record.getD 0 "" ≠ ""
      ∧ (record.getD 0 "").data.contains '/' = true then
    let date_parts := splitOnChar '/' (record.getD 0 "").data
    if 3 ≤ date_parts.length then
      match pyInt? (date_parts.getD 0 []), pyInt? (date_parts.getD 1 []),
          pyInt? (date_parts.getD 2 []) with
      | some ry, some rm, some rd => some (ry, rm, rd)
      | _, _, _ => none
    else none
  else none

/-- The month a row is aggregated under, if any: the second component of
the parsed date. -/
def monthOf (record : List String) : Option Int :=
  (dateOf? record).map (fun x => x.2.1)

/-- The duration parse shared verbatim by both aggregation loops (lines
83–89 and 200–205): `hours * 60 + minutes` when `record[4]` contains `:`
and its first two `:`-separated parts convert with `int`; `none` when the
parse fails (the `except` branch of the source). -/
def durMinutes? (s : String) : Option Int :=
  if s.data.contains ':' = true then
    let time_parts := splitOnChar ':' s.data
    if 2 ≤ time_parts.length then
      match pyInt? (time_parts.getD 0 []), pyInt? (time_parts.getD 1 []) with
      | some hours, some minutes => some (hours * 60 + minutes)
      | _, _ => none
    else none
  else none

/-- One iteration of the aggregation loop of `calculate_monthly_stats`
(lines 68–91): the minutes the row adds to `total_minutes`, and the day it
adds to `worked_days` (`some day` exactly when the month matched — the day
is inserted before the duration parse, so a failed duration contributes
`(0, some day)`). -/
def statsRow (current_month : Int) (record : List String) : Int × Option Int :=
  match dateOf? record with
  | some (_, rm, rd) =>
    if rm = current_month then
      ((durMinutes? (record.getD 4 "")).getD 0, some rd)
    else (0, none)
  | none => (0, none)

/-- Sum of the per-row minutes over a row list. -/
def aggMinutes (m : Int) (l : List (List String)) : Int :=
  (l.map (fun r => (statsRow m r).1)).sum

/-- Set of worked days over a row list. -/
def aggDays (m : Int) (l : List (List String)) : Finset Int :=
  (l.filterMap (fun r => (statsRow m r).2)).toFinset

/-- `total_minutes` of `calculate_monthly_stats`: header row skipped. -/
def totalMinutes (records : List (List String)) (current_month : Int) : Int :=
  aggMinutes current_month (records.drop 1)

/-- `worked_days` of `calculate_monthly_stats`: header row skipped. -/
def workedDays (records : List (List String)) (current_month : Int) : Finset Int :=
  aggDays current_month (records.drop 1)

/-! ## Business-day loops (lines 108–136)

Both loops build `jdatetime.date(now.year, current_month, day)` — which
raises `ValueError` on an invalid date — convert to Gregorian, and count
the days whose Python `weekday()` is not 4 (Friday). -/

/-- One of the `for day in range(1, …+1)` business-day loops of
`calculate_monthly_stats`, with the `jdatetime.date` constructor's
`ValueError` propagated. -/
def countBusinessDaysExc (year month : Int) : List Int → Except String Int
  | [] => .ok 0
  | d :: rest =>
    if jdateValid year month d then
      match countBusinessDaysExc year month rest with
      | .ok c => .ok ((if jWeekday year month d ≠ 4 then 1 else 0) + c)
      | .error e => .error e
    else .error "day is out of range for month"

/-- The dictionary returned by `calculate_monthly_stats` (lines 145–150). -/
structure Stats where
  total_hours : String
  current_salary : ℚ
  expected_salary : ℚ
  projected_salary : ℚ
deriving DecidableEq, Repr

/-- `calculate_monthly_stats(sheet, current_month, hourly_rate)` of
`bot.py` (lines 62–150).  The ledger snapshot (`sheet.get_all_values()`)
is passed explicitly as `records`, and the wall clock reading
`jdatetime.datetime.now()` is passed explicitly as `now_year` / `now_day`
(the source reads `now.year` and `now.day`).  Float arithmetic is `ℚ`;
an uncaught `ValueError` is `.error`.  Note the source computes
`business_days` (elapsed business days) and then never uses it:
`remainig_days` subtracts the calendar day `current_day` instead. -/
def calculate_monthly_stats (records : List (List String)) (current_month : Int)
    (hourly_rate : ℚ) (now_year now_day : Int) : Except String Stats :=
  let total_minutes := totalMinutes records current_month
  let worked_days := workedDays records current_month
  let total_hours : ℚ := (total_minutes : ℚ) / 60
  let total_hours_display :=
    pad2 (truncInt total_hours) ++ ":" ++ pad2 (total_minutes.fmod 60)
  let current_salary := total_hours * hourly_rate
  match countBusinessDaysExc now_year current_month (pyRange1 now_day) with
  | .error e => .error e
  | .ok _business_days =>
    let days_worked : Int := (worked_days.card : Int)
    let avg_hours_per_day : ℚ :=
      if 0 < days_worked then total_hours / (days_worked : ℚ) else 0
    match get_last_day_of_month now_year current_month with
    | .error e => .error e
    | .ok month_length =>
      match countBusinessDaysExc now_year current_month (pyRange1 month_length) with
      | .error e => .error e
      | .ok total_business_days =>
        let remainig_days : ℚ := (total_business_days : ℚ) - (now_day : ℚ)
        let projected_hours := avg_hours_per_day * remainig_days
        let projected_salary := projected_hours * hourly_rate + current_salary
        let expected_hours := remainig_days * 8
        let expected_salary := expected_hours * hourly_rate + current_salary
        .ok ⟨total_hours_display, current_salary, expected_salary, projected_salary⟩

/-! ## `calculate_monthly_hours` (src/bot.py lines 188–211)

The near-duplicate display-only loop: same row filter and duration code,
but it requires only `len(date_parts) >= 2` and converts only
`date_parts[1]` (the month) — the year and day parts are never parsed —
and the final display uses `//` and `%` instead of `int(...)`. -/

/-- The month extraction of `calculate_monthly_hours` (lines 195–198). -/
def hoursMonthOf? (record : List String) : Option Int :=
  if 5 ≤ record.length ∧ record.getD 4 "" ≠ "" ∧ record.getD 0 "" ≠ ""
      ∧ (record.getD 0 "").data.contains '/' = true then
    let date_parts := splitOnChar '/' (record.getD 0 "").data
    if 2 ≤ date_parts.length then pyInt? (date_parts.getD 1 []) else none
  else none

/-- One iteration of the `calculate_monthly_hours` loop (lines 192–207). -/
def hoursRow (current_month : Int) (record : List String) : Int :=
  match hoursMonthOf? record with
  | some rm =>
    if rm = current_month then (durMinutes? (record.getD 4 "")).getD 0 else 0
  | none => 0

/-- `calculate_monthly_hours(sheet, current_month)` of `bot.py`. -/
def calculate_monthly_hours (records : List (List String)) (current_month : Int) :
    String :=
  let total_minutes := ((records.drop 1).map (fun r => hoursRow current_month r)).sum
  pad2 (total_minutes.fdiv 60) ++ ":" ++ pad2 (total_minutes.fmod 60)

/-! ## Check-in and check-out writers (src/bot.py lines 290–343)

`handle_time_logging` owns both ledger writes.  Check-in calls
`sheet.append_row([...])` — an append at the end of the ledger.  Check-out
walks `range(len(all_records)-1, -1, -1)` (all rows, header included) and
picks the first row from the end with `all_records[i][3] == ""`, writing
the current time into column 4 of that row; the `for`-`else` answers
"You need to check in first!" and writes nothing.  (`get_all_values()`
returns a rectangular grid, so reading cell 3 of any row is total; the
duration/summary updates inside the subsequent `try` block touch only the
already-selected row and are not part of the row-selection or fallback
behaviour modelled here.) -/

/-- The check-in branch (lines 298–307): `sheet.append_row` with the new
record. -/
def check_in (ledger : List (List String))
    (persian_date weekday current_time : String) : List (List String) :=
  ledger ++ [[persian_date, weekday, current_time, "", "", ""]]

/-- Modelled from the spec: §4.2's check-in writer, which is absent from
the code — "when appending a new check-in, the writer must choose the
first row whose date field is blank (scanning from row 2 forward) rather
than always appending at the end". -/
def spec_check_in (ledger : List (List String))
    (persian_date weekday current_time : String) : List (List String) :=
  match ((List.range ledger.length).drop 1).find?
      (fun i => (ledger.getD i []).getD 0 "" == "") with
  | some i => ledger.set i [persian_date, weekday, current_time, "", "", ""]
  | none => ledger ++ [[persian_date, weekday, current_time, "", "", ""]]

/-- The row index selected by the check-out branch: the loop
`for i in range(len(all_records)-1, -1, -1)` stopping at the first row
from the end with `all_records[i][3] == ""` (recursion prefers the tail,
i.e. the later row, exactly like the backward scan). -/
def checkout_target : List (List String) → Option Nat
  | [] => none
  | r :: rs =>
    match checkout_target rs with
    | some i => some (i + 1)
    | none => if r.getD 3 "" = "" then some 0 else none

/-- The check-out branch (lines 311–343): writes `current_time` into
column 4 (index 3) of the selected row and returns its index, or returns
`none` — the "You need to check in first!" answer of the `for`-`else`,
with no write. -/
def check_out (ledger : List (List String)) (current_time : String) :
    Option (Nat × List (List String)) :=
  match checkout_target ledger with
  | some i => some (i, ledger.set i ((ledger.getD i []).set 3 current_time))
  | none => none

/-! ## Sanity checks and claim theorems -/

-- Sanity: the conversion reproduces known facts.  1403/12/29 falls in
-- Gregorian 2025, and 1 Mordad 1403 (= 2024-07-22) is a Monday.
example : gregorianYearOfJalali 1403 12 29 = 2025 := by decide
example : jWeekday 1403 5 1 = 0 := by decide

/-- C1: `month_length(year, 12)` (implemented by `get_last_day_of_month`)
must return 30 exactly in a leap year of the Persian calendar.  The code
instead tests the Gregorian year modulo 4: at `year = 1403` — a Persian
leap year by the leap rule of the very library the code uses
(`jdatetime.date.isleap`), whose Esfand has 30 days — the code returns 29
because the Gregorian image year 2025 is not divisible by 4. -/
theorem C1_esfand_gregorian_mod4_bug :
    get_last_day_of_month 1403 12 = .ok 29 ∧
    isJalaliLeap 1403 = true ∧
    jDaysInMonth 1403 12 = 30 := by
  refine ⟨?_, by decide, by decide⟩
  show (if (gregorianYearOfJalali 1403 12 29).fmod 4 = 0 then
      (.ok 30 : Except String Int) else .ok 29) = .ok 29
  rw [show gregorianYearOfJalali 1403 12 29 = 2025 from by decide]
  decide

-- Sanity: the spec's §8 scenario row contributes 480 minutes on day 15.
example :
    statsRow 1 ["2024/01/15", "Monday", "09:00:00 AM", "05:00:00 PM", "08:00", ""]
      = (480, some 15) := by decide

example : countBusinessDaysExc 1403 5 (pyRange1 10) = .ok 9 := by decide

example : countBusinessDaysExc 1403 5 (pyRange1 31) = .ok 27 := by decide

example : calculate_monthly_hours
    [["h1", "h2", "h3", "h4", "h5", "h6"],
     ["1403/05/01", "x", "i", "o", "02:30", ""],
     ["1403/06/01", "x", "i", "o", "01:00", ""]] 5 = "02:30" := by decide

/-! ## Helper lemmas about the aggregation loop -/

/-- A row that never reaches the month match contributes no minutes. -/
theorem statsRow_fst_of_snd_none (m : Int) (r : List String)
    (h : (statsRow m r).2 = none) : (statsRow m r).1 = 0 := by
  unfold statsRow at h ⊢
  cases hd : dateOf? r with
  | none => simp
  | some x =>
    obtain ⟨ry, rm, rd⟩ := x
    rw [hd] at h
    by_cases hm : rm = m
    · simp [hm] at h
    · simp [hm]

/-- A row whose parsed month is not the target month contributes nothing
at all. -/
theorem statsRow_eq_of_monthOf_ne (m : Int) (r : List String)
    (h : monthOf r ≠ some m) : statsRow m r = (0, none) := by
  unfold monthOf at h
  unfold statsRow
  cases hd : dateOf? r with
  | none => simp
  | some x =>
    obtain ⟨ry, rm, rd⟩ := x
    rw [hd] at h
    simp only [Option.map_some', Option.some.injEq] at h
    have h' : rm ≠ m := fun e => h (by rw [e])
    simp [h']

/-- Dropping the month-mismatching rows does not change the minute total. -/
theorem aggMinutes_filter (m : Int) (l : List (List String)) :
    aggMinutes m (l.filter (fun r => monthOf r == some m)) = aggMinutes m l := by
  induction l with
  | nil => rfl
  | cons r t ih =>
    by_cases h : monthOf r = some m
    · simp only [aggMinutes, List.filter_cons, h, beq_self_eq_true, if_pos,
        List.map_cons, List.sum_cons] at ih ⊢
      omega
    · have hz : (statsRow m r).1 = 0 := by
        rw [statsRow_eq_of_monthOf_ne m r h]
      simp only [aggMinutes, List.filter_cons, List.map_cons, List.sum_cons, hz,
        beq_iff_eq, h, if_false, zero_add] at ih ⊢
      exact ih

/-- Dropping the month-mismatching rows does not change the worked-day set. -/
theorem aggDays_filter (m : Int) (l : List (List String)) :
    aggDays m (l.filter (fun r => monthOf r == some m)) = aggDays m l := by
  induction l with
  | nil => rfl
  | cons r t ih =>
    by_cases h : monthOf r = some m
    · simp only [aggDays, List.filter_cons, h, beq_self_eq_true, if_pos,
        List.filterMap_cons] at ih ⊢
      cases hs : (statsRow m r).2 <;> simp [hs, ih]
    · have hz : (statsRow m r).2 = none := by
        rw [statsRow_eq_of_monthOf_ne m r h]
      simp only [aggDays, List.filter_cons, List.filterMap_cons, hz,
        beq_iff_eq, h, if_false] at ih ⊢
      exact ih

/-- Appending a month-mismatching row changes neither aggregate. -/
theorem agg_append_of_monthOf_ne (records : List (List String)) (r : List String)
    (m : Int) (h : monthOf r ≠ some m) :
    totalMinutes (records ++ [r]) m = totalMinutes records m ∧
    workedDays (records ++ [r]) m = workedDays records m := by
  have hz := statsRow_eq_of_monthOf_ne m r h
  cases records with
  | nil =>
    constructor <;> simp [totalMinutes, workedDays, aggMinutes, aggDays]
  | cons a l =>
    constructor
    · simp [totalMinutes, aggMinutes, hz]
    · simp [workedDays, aggDays, List.filterMap_append, hz]

/-! ## C2: the aggregation filters by month only, the year is ignored -/

/-- C2 counterexample: `calculate_monthly_stats` has no target-year input
at all — its aggregation (lines 68–91) parses `record_year` but compares
only `record_month == current_month`.  A row dated year 1402 contributes
its 60 minutes and its worked day to a query for month 5 of any year
(in particular 1403), where the claim demands it contribute neither. -/
theorem C2_year_ignored_cex :
    totalMinutes
      [["h1", "h2", "h3", "h4", "h5", "h6"],
       ["1402/05/01", "Sat", "09:00:00 AM", "10:00:00 AM", "01:00", ""]] 5 = 60 ∧
    workedDays
      [["h1", "h2", "h3", "h4", "h5", "h6"],
       ["1402/05/01", "Sat", "09:00:00 AM", "10:00:00 AM", "01:00", ""]] 5 = {1} := by
  constructor
  · decide
  · decide

/-- C2 amended: the statistics aggregation includes exactly the non-header
rows whose parsed date month matches the target month — the year part is
parsed but never compared, so restricting the snapshot to the
month-matching rows changes neither the minute total nor the worked-day
set. -/
theorem C2_month_only_filter (records : List (List String)) (m : Int) :
    totalMinutes records m
      = totalMinutes
          (records.take 1 ++ (records.drop 1).filter (fun r => monthOf r == some m)) m ∧
    workedDays records m
      = workedDays
          (records.take 1 ++ (records.drop 1).filter (fun r => monthOf r == some m)) m := by
  cases records with
  | nil => exact ⟨rfl, rfl⟩
  | cons a l =>
    constructor
    · simpa [totalMinutes] using (aggMinutes_filter m l).symm
    · simpa [workedDays] using (aggDays_filter m l).symm

/-! ## C7: a row with an unparseable duration still marks its day worked -/

/-- C7 counterexample: a month-matching row whose duration `"zz:10"` fails
integer parsing is not dropped entirely — line 81 adds its day to
`worked_days` before the duration parse of lines 83–89 raises — so the
worked-day set is `{5}` where the claim demands it stay empty. -/
theorem C7_bad_duration_day_counted_cex :
    workedDays
      [["d", "w", "ci", "co", "t", "a"],
       ["1403/07/05", "Sat", "09:00:00 AM", "", "zz:10", ""]] 7 = {5} ∧
    totalMinutes
      [["d", "w", "ci", "co", "t", "a"],
       ["1403/07/05", "Sat", "09:00:00 AM", "", "zz:10", ""]] 7 = 0 ∧
    durMinutes? "zz:10" = none ∧
    ({5} : Finset Int) ≠ ∅ := by
  refine ⟨by decide, by decide, by decide, by decide⟩

/-- C7 amended: a row whose duration field fails parsing contributes no
minutes, but — provided its date parses and matches the target month — its
day-of-month is still inserted into the worked-days set; so a day can
count as "worked" on the strength of a duration-less record alone.  The
snapshot must be non-empty (its first row is the header). -/
theorem C7_bad_duration_all_snapshots (records : List (List String))
    (r : List String) (ry m d : Int)
    (hne : records ≠ [])
    (hdate : dateOf? r = some (ry, m, d))
    (hdur : durMinutes? (r.getD 4 "") = none) :
    totalMinutes (records ++ [r]) m = totalMinutes records m ∧
    workedDays (records ++ [r]) m = insert d (workedDays records m) := by
  have hrow : statsRow m r = (0, some d) := by
    unfold statsRow
    rw [hdate]
    simp only [List.getD, List.get?_eq_getElem?] at hdur
    simp [hdur]
  cases records with
  | nil => exact absurd rfl hne
  | cons a l =>
    constructor
    · simp [totalMinutes, aggMinutes, hrow]
    · simp only [workedDays, aggDays, List.cons_append, List.drop_succ_cons,
        List.drop_zero, List.filterMap_append, List.filterMap_cons, hrow,
        List.filterMap_nil, List.toFinset_append]
      rw [Finset.insert_eq, Finset.union_comm]
      simp

/-- Witness for `C7_bad_duration_all_snapshots` at a concrete snapshot. -/
theorem C7_bad_duration_all_snapshots_witness :
    totalMinutes
      ([["d", "w", "ci", "co", "t", "a"]]
        ++ [["1403/07/05", "Sat", "x", "", "zz:10", ""]]) 7
      = totalMinutes [["d", "w", "ci", "co", "t", "a"]] 7 ∧
    workedDays
      ([["d", "w", "ci", "co", "t", "a"]]
        ++ [["1403/07/05", "Sat", "x", "", "zz:10", ""]]) 7
      = insert 5 (workedDays [["d", "w", "ci", "co", "t", "a"]] 7) :=
  C7_bad_duration_all_snapshots [["d", "w", "ci", "co", "t", "a"]]
    ["1403/07/05", "Sat", "x", "", "zz:10", ""] 1403 7 5
    (by decide) (by decide) (by decide)

/-! ## Dissecting a successful statistics run -/

/-- A successful `calculate_monthly_stats` run, written out in terms of
the model's components: the display, the current salary, and — with the
month length `L` and the in-month business-day count `tbd` produced along
the way — the expected and projected salaries, both of which add
`current_salary` and both of which multiply by
`remainig_days = tbd - now_day` (the calendar day, not the elapsed
business days). -/
theorem stats_ok_dissect (records : List (List String)) (m : Int) (rate : ℚ)
    (y d : Int) (s : Stats)
    (hok : calculate_monthly_stats records m rate y d = .ok s) :
    ∃ L tbd : Int,
      get_last_day_of_month y m = .ok L ∧
      countBusinessDaysExc y m (pyRange1 L) = .ok tbd ∧
      s.total_hours
        = pad2 (truncInt ((totalMinutes records m : ℚ) / 60)) ++ ":"
            ++ pad2 ((totalMinutes records m).fmod 60) ∧
      s.current_salary = ((totalMinutes records m : ℚ) / 60) * rate ∧
      s.expected_salary = ((tbd : ℚ) - (d : ℚ)) * 8 * rate + s.current_salary ∧
      s.projected_salary
        = (if 0 < ((workedDays records m).card : Int) then
             ((totalMinutes records m : ℚ) / 60)
               / (((workedDays records m).card : Int) : ℚ)
           else 0) * ((tbd : ℚ) - (d : ℚ)) * rate + s.current_salary := by
  unfold calculate_monthly_stats at hok
  cases h1 : countBusinessDaysExc y m (pyRange1 d) with
  | error e => simp [h1] at hok
  | ok bd =>
    cases h2 : get_last_day_of_month y m with
    | error e => simp [h1, h2] at hok
    | ok L =>
      cases h3 : countBusinessDaysExc y m (pyRange1 L) with
      | error e => simp [h1, h2, h3] at hok
      | ok tbd =>
        simp only [h1, h2, h3, Except.ok.injEq] at hok
        subst hok
        exact ⟨L, tbd, rfl, h3, rfl, rfl, rfl, rfl⟩

/-- If no day was marked worked, no row contributed minutes either (the
day is inserted before any minutes are added). -/
theorem totalMinutes_of_workedDays_empty (records : List (List String)) (m : Int)
    (h : workedDays records m = ∅) : totalMinutes records m = 0 := by
  unfold workedDays aggDays at h
  unfold totalMinutes aggMinutes
  rw [List.toFinset_eq_empty_iff, List.filterMap_eq_nil_iff] at h
  apply List.sum_eq_zero
  intro x hx
  simp only [List.mem_map] at hx
  obtain ⟨r, hr, rfl⟩ := hx
  exact statsRow_fst_of_snd_none m r (h r hr)

/-! ## C9: empty worked-day set gives a zero projection -/

/-- C9: whenever `calculate_monthly_stats` returns a result computed from
an empty `worked_days` set, the projected salary is 0, with no division by
zero: the `days_worked > 0` guard (line 123) forces the daily average to
0, and with no contributing rows the current salary is 0 as well, so
`projected_salary = 0 * remainig_days * rate + 0 = 0` regardless of the
hourly rate and the clock reading. -/
theorem C9_empty_worked_days_projected_zero (records : List (List String))
    (m : Int) (rate : ℚ) (y d : Int) (s : Stats)
    (hok : calculate_monthly_stats records m rate y d = .ok s)
    (hempty : workedDays records m = ∅) :
    s.projected_salary = 0 := by
  obtain ⟨L, tbd, -, -, -, hcur, -, hproj⟩ :=
    stats_ok_dissect records m rate y d s hok
  have htm := totalMinutes_of_workedDays_empty records m hempty
  rw [hempty, htm] at hproj
  rw [htm] at hcur
  norm_num at hcur hproj
  rw [hcur] at hproj
  simpa using hproj

/-- Witness for `C9_empty_worked_days_projected_zero`: a header-only
snapshot. -/
theorem C9_empty_worked_days_projected_zero_witness :
    (calculate_monthly_stats [["d", "w", "ci", "co", "t", "a"]] 6 70000 1403 4).toOption.map
      Stats.projected_salary = some 0 := by
  cases hcalc : calculate_monthly_stats [["d", "w", "ci", "co", "t", "a"]] 6 70000 1403 4 with
  | error e =>
    have hT : (calculate_monthly_stats [["d", "w", "ci", "co", "t", "a"]] 6 70000 1403 4).isOk
        = true := by decide
    rw [hcalc] at hT
    exact absurd hT (by simp [Except.isOk, Except.toBool])
  | ok s =>
    have hz := C9_empty_worked_days_projected_zero [["d", "w", "ci", "co", "t", "a"]]
      6 70000 1403 4 s hcalc (by decide)
    simp [Except.toOption, hz]

/-! ## C3: the projection subtracts the calendar day, not the elapsed
business days -/

/-- C3 (code bug): with the clock at 1403/05/10 (Mordad has Fridays on
days 5, 12, 19, 26, so 9 of the first 10 days and 27 of all 31 days are
business days) and one 8-hour day worked, line 139 computes
`remainig_days = 27 - 10` from the calendar day — the elapsed business-day
count 9 computed at lines 109–116 is never used — so the code returns
`8 * 17 * 55000 + 440000 = 7 920 000`, while the claimed formula
`total_hours + avg * (total_business_days - elapsed_business_days)` gives
`(8 + 8 * 18) * 55000 = 8 360 000`. -/
theorem C3_projected_salary_remaining_days_bug :
    (calculate_monthly_stats
        [["d", "w", "ci", "co", "t", "a"],
         ["1403/05/01", "Mon", "09:00:00 AM", "05:00:00 PM", "08:00", ""]]
        5 55000 1403 10).toOption.map Stats.projected_salary = some 7920000 ∧
    countBusinessDaysExc 1403 5 (pyRange1 10) = .ok 9 ∧
    get_last_day_of_month 1403 5 = .ok 31 ∧
    countBusinessDaysExc 1403 5 (pyRange1 31) = .ok 27 ∧
    ((480 : ℚ) / 60 + ((480 : ℚ) / 60) * ((27 : ℚ) - 9)) * 55000 = 8360000 := by
  refine ⟨?_, by decide, by decide, by decide, by norm_num⟩
  have h1 : totalMinutes
      [["d", "w", "ci", "co", "t", "a"],
       ["1403/05/01", "Mon", "09:00:00 AM", "05:00:00 PM", "08:00", ""]] 5 = 480 := by
    decide
  have h2 : workedDays
      [["d", "w", "ci", "co", "t", "a"],
       ["1403/05/01", "Mon", "09:00:00 AM", "05:00:00 PM", "08:00", ""]] 5 = {1} := by
    decide
  have hbd : countBusinessDaysExc 1403 5 (pyRange1 10) = .ok 9 := by decide
  have hL : get_last_day_of_month 1403 5 = .ok 31 := by decide
  have htbd : countBusinessDaysExc 1403 5 (pyRange1 31) = .ok 27 := by decide
  simp only [calculate_monthly_stats, h1, h2, hbd, hL, htbd, Except.toOption,
    Option.map, Finset.card_singleton]
  norm_num

/-! ## C4: the expected salary is additive and uses the calendar day -/

/-- C4 counterexample: with the clock at 1403/05/12 (10 of the first 12
days of Mordad are business days) and 4 hours worked, lines 142–143
compute `expected_salary = (27 - 12) * 8 * 55000 + 220000 = 6 820 000`,
not the claimed absolute figure
`elapsed_business_days * 8 * rate = 10 * 8 * 55000 = 4 400 000`. -/
theorem C4_expected_salary_cex :
    (calculate_monthly_stats
        [["d", "w", "ci", "co", "t", "a"],
         ["1403/05/01", "Mon", "09:00:00 AM", "01:00:00 PM", "04:00", ""]]
        5 55000 1403 12).toOption.map Stats.expected_salary = some 6820000 ∧
    countBusinessDaysExc 1403 5 (pyRange1 12) = .ok 10 ∧
    (10 : ℚ) * 8 * 55000 = 4400000 ∧
    (4400000 : ℚ) ≠ 6820000 := by
  refine ⟨?_, by decide, by norm_num, by norm_num⟩
  have h1 : totalMinutes
      [["d", "w", "ci", "co", "t", "a"],
       ["1403/05/01", "Mon", "09:00:00 AM", "01:00:00 PM", "04:00", ""]] 5 = 240 := by
    decide
  have h2 : workedDays
      [["d", "w", "ci", "co", "t", "a"],
       ["1403/05/01", "Mon", "09:00:00 AM", "01:00:00 PM", "04:00", ""]] 5 = {1} := by
    decide
  have hbd : countBusinessDaysExc 1403 5 (pyRange1 12) = .ok 10 := by decide
  have hL : get_last_day_of_month 1403 5 = .ok 31 := by decide
  have htbd : countBusinessDaysExc 1403 5 (pyRange1 31) = .ok 27 := by decide
  simp only [calculate_monthly_stats, h1, h2, hbd, hL, htbd, Except.toOption,
    Option.map, Finset.card_singleton]
  norm_num

/-- C4 amended: the code implements the additive ("forward-looking")
variant of the expected salary, with the remaining-day count taken as
`total_business_days - current_day` (the calendar day of the month):
`expected_salary = (tbd - now_day) * 8 * rate + current_salary`, where
`tbd` is the business-day count over the whole month and
`current_salary = (total_minutes / 60) * rate`. -/
theorem C4_expected_salary_additive (records : List (List String)) (m : Int)
    (rate : ℚ) (y d : Int) (s : Stats) (L tbd : Int)
    (hok : calculate_monthly_stats records m rate y d = .ok s)
    (hL : get_last_day_of_month y m = .ok L)
    (htbd : countBusinessDaysExc y m (pyRange1 L) = .ok tbd) :
    s.expected_salary = ((tbd : ℚ) - (d : ℚ)) * 8 * rate
      + ((totalMinutes records m : ℚ) / 60) * rate := by
  obtain ⟨L', tbd', hL', htbd', -, hcur, hexp, -⟩ :=
    stats_ok_dissect records m rate y d s hok
  rw [hL'] at hL
  injection hL with hLe
  subst hLe
  rw [htbd'] at htbd
  injection htbd with he
  subst he
  rw [hexp, hcur]

/-- Witness for `C4_expected_salary_additive`: a header-only snapshot of
Bahman 1402 (31 days, 26 business days), clock day 3, rate 1000. -/
theorem C4_expected_salary_additive_witness :
    (calculate_monthly_stats [["d", "w", "ci", "co", "t", "a"]] 2 1000 1402 3).toOption.map
        Stats.expected_salary
      = some (((26 : ℚ) - (3 : ℚ)) * 8 * 1000
          + ((totalMinutes [["d", "w", "ci", "co", "t", "a"]] 2 : ℚ) / 60) * 1000) := by
  cases hcalc : calculate_monthly_stats [["d", "w", "ci", "co", "t", "a"]] 2 1000 1402 3 with
  | error e =>
    have hT : (calculate_monthly_stats [["d", "w", "ci", "co", "t", "a"]] 2 1000 1402 3).isOk
        = true := by decide
    rw [hcalc] at hT
    exact absurd hT (by simp [Except.isOk, Except.toBool])
  | ok s =>
    have he := C4_expected_salary_additive [["d", "w", "ci", "co", "t", "a"]] 2 1000 1402 3
      s 31 26 hcalc (by decide) (by decide)
    simp [Except.toOption, he]

/-! ## C8: robustness of the statistics computation -/

/-- The business-day loop succeeds when every iterated day is a valid
date of the month. -/
theorem countBusinessDaysExc_isOk (y m : Int) (l : List Int)
    (h : ∀ d ∈ l, jdateValid y m d = true) :
    ∃ c, countBusinessDaysExc y m l = .ok c := by
  induction l with
  | nil => exact ⟨0, rfl⟩
  | cons d t ih =>
    obtain ⟨c, hc⟩ := ih (fun x hx => h x (List.mem_cons_of_mem d hx))
    refine ⟨(if jWeekday y m d ≠ 4 then 1 else 0) + c, ?_⟩
    unfold countBusinessDaysExc
    rw [if_pos (h d (List.mem_cons_self d t)), hc]

/-- Membership in the modelled `range(1, n + 1)`. -/
theorem mem_pyRange1 (n d : Int) (h : d ∈ pyRange1 n) : 1 ≤ d ∧ d ≤ n := by
  unfold pyRange1 at h
  obtain ⟨k, hk, he⟩ := List.mem_map.mp h
  have hk2 := List.mem_range.mp hk
  omega

/-- `get_last_day_of_month` succeeds on any month between 1 and 12. -/
theorem get_last_day_of_month_isOk (y m : Int) (h1 : 1 ≤ m) (h2 : m ≤ 12) :
    ∃ L, get_last_day_of_month y m = .ok L ∧
      (get_last_day_of_month y m).toOption.getD 0 = L := by
  unfold get_last_day_of_month
  split_ifs
  all_goals first
    | exact ⟨_, rfl, rfl⟩
    | omega

/-- C8 amended: the statistics computation is total in the snapshot —
under a well-formed clock reading (a month between 1 and 12, a clock day
inside the month, and a month-length answer that the `jdatetime`
constructor accepts) it returns a result for **every** snapshot, however
malformed its rows; and any row whose date never reaches a successful
month match — too few fields, empty date or duration field, a date that
fails integer parsing, or a month different from the target (such as
`"2024/13/01"` against any target month 1–12) — is dropped without any effect on
the result.  (A row that reaches the month match and fails only in the
duration parse is *not* without effect: its day still counts as worked —
see C7.) -/
theorem C8_stats_total_and_mismatch_dropped (records : List (List String))
    (r : List String) (month : Int) (rate : ℚ) (now_year now_day : Int)
    (hm1 : 1 ≤ month) (hm2 : month ≤ 12)
    (hday : now_day ≤ jDaysInMonth now_year month)
    (hlast : (get_last_day_of_month now_year month).toOption.getD 0
      ≤ jDaysInMonth now_year month)
    (hr : monthOf r ≠ some month) :
    (calculate_monthly_stats records month rate now_year now_day).isOk = true ∧
    calculate_monthly_stats (records ++ [r]) month rate now_year now_day
      = calculate_monthly_stats records month rate now_year now_day := by
  constructor
  · obtain ⟨L, hL, hLval⟩ := get_last_day_of_month_isOk now_year month hm1 hm2
    have hvalid1 : ∀ d ∈ pyRange1 now_day, jdateValid now_year month d = true := by
      intro d hd
      obtain ⟨hd1, hd2⟩ := mem_pyRange1 now_day d hd
      simp only [jdateValid, Bool.and_eq_true, decide_eq_true_eq]
      refine ⟨⟨⟨hm1, hm2⟩, hd1⟩, by omega⟩
    obtain ⟨c1, hc1⟩ := countBusinessDaysExc_isOk now_year month _ hvalid1
    have hLle : L ≤ jDaysInMonth now_year month := by
      rw [hL] at hlast
      simpa using hlast
    have hvalid2 : ∀ d ∈ pyRange1 L, jdateValid now_year month d = true := by
      intro d hd
      obtain ⟨hd1, hd2⟩ := mem_pyRange1 L d hd
      simp only [jdateValid, Bool.and_eq_true, decide_eq_true_eq]
      refine ⟨⟨⟨hm1, hm2⟩, hd1⟩, by omega⟩
    obtain ⟨c2, hc2⟩ := countBusinessDaysExc_isOk now_year month _ hvalid2
    simp [calculate_monthly_stats, hc1, hL, hc2, Except.isOk, Except.toBool]
  · have hagg := agg_append_of_monthOf_ne records r month hr
    simp only [calculate_monthly_stats, hagg.1, hagg.2]

/-- Witness for `C8_stats_total_and_mismatch_dropped`: the spec's §8
scenario row `"2024/13/01"` appended to a header-only snapshot of Mordad
1403, clock day 10. -/
theorem C8_stats_total_and_mismatch_dropped_witness :
    (calculate_monthly_stats [["d", "w", "ci", "co", "t", "a"]] 5 55000 1403 10).isOk
      = true ∧
    calculate_monthly_stats
        ([["d", "w", "ci", "co", "t", "a"]]
          ++ [["2024/13/01", "x", "09:00:00 AM", "05:00:00 PM", "08:00", ""]])
        5 55000 1403 10
      = calculate_monthly_stats [["d", "w", "ci", "co", "t", "a"]] 5 55000 1403 10 :=
  C8_stats_total_and_mismatch_dropped [["d", "w", "ci", "co", "t", "a"]]
    ["2024/13/01", "x", "09:00:00 AM", "05:00:00 PM", "08:00", ""] 5 55000 1403 10
    (by decide) (by decide) (by decide) (by decide) (by decide)

/-- C8 counterexample: a row whose duration `"aa:bb"` fails integer
parsing is *not* "silently excluded": appending it to a snapshot changes
the returned projection (its day enlarges `worked_days`, halving the daily
average), so the claim's exclusion list is wrong about the
duration-failure class.  No error is raised either way — the two runs
both return a result, they just disagree. -/
theorem C8_bad_duration_not_excluded_cex :
    (calculate_monthly_stats
        [["d", "w", "ci", "co", "t", "a"],
         ["1403/05/01", "Mon", "09:00:00 AM", "05:00:00 PM", "08:00", ""],
         ["1403/05/02", "Tue", "09:00:00 AM", "", "aa:bb", ""]]
        5 55000 1403 3).toOption.map Stats.projected_salary = some 5720000 ∧
    (calculate_monthly_stats
        [["d", "w", "ci", "co", "t", "a"],
         ["1403/05/01", "Mon", "09:00:00 AM", "05:00:00 PM", "08:00", ""]]
        5 55000 1403 3).toOption.map Stats.projected_salary = some 11000000 ∧
    durMinutes? "aa:bb" = none ∧
    (5720000 : ℚ) ≠ 11000000 := by
  refine ⟨?_, ?_, by decide, by norm_num⟩
  · have h1 : totalMinutes
        [["d", "w", "ci", "co", "t", "a"],
         ["1403/05/01", "Mon", "09:00:00 AM", "05:00:00 PM", "08:00", ""],
         ["1403/05/02", "Tue", "09:00:00 AM", "", "aa:bb", ""]] 5 = 480 := by decide
    have h2 : (workedDays
        [["d", "w", "ci", "co", "t", "a"],
         ["1403/05/01", "Mon", "09:00:00 AM", "05:00:00 PM", "08:00", ""],
         ["1403/05/02", "Tue", "09:00:00 AM", "", "aa:bb", ""]] 5).card = 2 := by decide
    have hbd : countBusinessDaysExc 1403 5 (pyRange1 3) = .ok 3 := by decide
    have hL : get_last_day_of_month 1403 5 = .ok 31 := by decide
    have htbd : countBusinessDaysExc 1403 5 (pyRange1 31) = .ok 27 := by decide
    simp only [calculate_monthly_stats, h1, h2, hbd, hL, htbd, Except.toOption,
      Option.map]
    norm_num
  · have h1 : totalMinutes
        [["d", "w", "ci", "co", "t", "a"],
         ["1403/05/01", "Mon", "09:00:00 AM", "05:00:00 PM", "08:00", ""]] 5 = 480 := by
      decide
    have h2 : (workedDays
        [["d", "w", "ci", "co", "t", "a"],
         ["1403/05/01", "Mon", "09:00:00 AM", "05:00:00 PM", "08:00", ""]] 5).card = 1 := by
      decide
    have hbd : countBusinessDaysExc 1403 5 (pyRange1 3) = .ok 3 := by decide
    have hL : get_last_day_of_month 1403 5 = .ok 31 := by decide
    have htbd : countBusinessDaysExc 1403 5 (pyRange1 31) = .ok 27 := by decide
    simp only [calculate_monthly_stats, h1, h2, hbd, hL, htbd, Except.toOption,
      Option.map]
    norm_num

/-! ## C5: check-in appends at the end of the ledger -/

/-- C5 counterexample: on a ledger with a blank padding row at row 2, the
code's check-in (`sheet.append_row`, line 300) produces a different ledger
than the claimed first-blank-row writer: the code leaves the blank row in
place and adds a fourth row at the end. -/
theorem C5_append_row_cex :
    check_in
        [["d", "w", "ci", "co", "t", "a"],
         ["", "", "", "", "", ""],
         ["1403/05/01", "Mon", "09:00:00 AM", "05:00:00 PM", "08:00", ""]]
        "1403/05/02" "Tue" "10:00:00 AM"
      ≠ spec_check_in
        [["d", "w", "ci", "co", "t", "a"],
         ["", "", "", "", "", ""],
         ["1403/05/01", "Mon", "09:00:00 AM", "05:00:00 PM", "08:00", ""]]
        "1403/05/02" "Tue" "10:00:00 AM" := by
  decide

/-- C5 amended: a new check-in is always appended as a fresh row at the
end of the ledger: the length grows by one, every existing row (blank or
not) is left untouched in place, and the new record sits at the old
length's position. -/
theorem C5_check_in_appends (ledger : List (List String))
    (pd wd ct : String) :
    (check_in ledger pd wd ct).length = ledger.length + 1 ∧
    (∀ i, i < ledger.length →
      (check_in ledger pd wd ct).getD i [] = ledger.getD i []) ∧
    (check_in ledger pd wd ct).getD ledger.length [] = [pd, wd, ct, "", "", ""] := by
  refine ⟨by simp [check_in], fun i hi => ?_, ?_⟩
  · simp only [check_in, List.getD, List.get?_eq_getElem?]
    rw [List.getElem?_append_left hi]
  · simp [check_in, List.getD, List.getElem?_concat_length]

/-- Witness for `C5_check_in_appends` at a concrete one-row ledger. -/
theorem C5_check_in_appends_witness :
    (check_in [["d", "w", "ci", "co", "t", "a"]] "1403/05/02" "Tue" "10:00:00 AM").getD 0 []
      = [["d", "w", "ci", "co", "t", "a"]].getD 0 [] :=
  (C5_check_in_appends [["d", "w", "ci", "co", "t", "a"]] "1403/05/02" "Tue"
    "10:00:00 AM").2.1 0 (by decide)

/-! ## C6: checkout targets the last blank check-out, header included,
check-in ignored -/

/-- C6 counterexample: on a ledger whose only data row has an empty
check-in *and* an empty check-out — so the ledger holds no open session in
the claim's sense (check-in present, check-out blank) — the code does not
answer "check in first": the backward scan of lines 313–316 only tests
`all_records[i][3] == ""`, finds row index 1, and writes the checkout time
into it. -/
theorem C6_checkout_no_open_session_cex :
    (check_out
        [["d", "w", "ci", "co", "t", "a"],
         ["1403/05/01", "Sat", "", "", "", ""]] "05:00:00 PM").map Prod.fst
      = some 1 ∧
    ([["d", "w", "ci", "co", "t", "a"],
      ["1403/05/01", "Sat", "", "", "", ""]].getD 1 []).getD 2 "" = "" ∧
    ([["d", "w", "ci", "co", "t", "a"],
      ["1403/05/01", "Sat", "", "", "", ""]].all
        (fun r => !(r.getD 2 "" != "" && r.getD 3 "" == ""))) = true := by
  refine ⟨by decide, by decide, by decide⟩

/-- A `getD` read inside the bounds is a member of the list. -/
theorem getD_mem_of_lt (l : List (List String)) (i : Nat) (h : i < l.length) :
    l.getD i [] ∈ l := by
  rw [List.getD_eq_getElem l [] h]
  exact List.getElem_mem h

/-- The backward scan picks exactly the last row with a blank fourth cell:
`none` means every row (header included) has a non-blank check-out. -/
theorem checkout_target_spec (ledger : List (List String)) :
    (checkout_target ledger = none ↔ ∀ r ∈ ledger, r.getD 3 "" ≠ "") ∧
    (∀ i, checkout_target ledger = some i →
      i < ledger.length ∧ (ledger.getD i []).getD 3 "" = "" ∧
      ∀ j, i < j → j < ledger.length → (ledger.getD j []).getD 3 "" ≠ "") := by
  induction ledger with
  | nil =>
    constructor
    · simp [checkout_target]
    · intro i hi
      simp [checkout_target] at hi
  | cons r rs ih =>
    have hmatch : checkout_target (r :: rs)
        = match checkout_target rs with
          | some i => some (i + 1)
          | none => if r.getD 3 "" = "" then some 0 else none := rfl
    cases ht : checkout_target rs with
    | some i0 =>
      rw [ht] at hmatch
      obtain ⟨hlt, hblank, hmax⟩ := ih.2 i0 ht
      constructor
      · rw [hmatch]
        simp only [reduceCtorEq, false_iff]
        intro hall
        exact hall (rs.getD i0 [])
          (List.mem_cons_of_mem r (getD_mem_of_lt rs i0 hlt)) hblank
      · intro i hi
        rw [hmatch] at hi
        injection hi with hi0
        subst hi0
        refine ⟨by simpa using Nat.succ_lt_succ hlt, by simpa using hblank, ?_⟩
        intro j hj1 hj2
        cases j with
        | zero => omega
        | succ j0 =>
          simpa using hmax j0 (by omega) (by simpa using hj2)
    | none =>
      rw [ht] at hmatch
      by_cases hb : r.getD 3 "" = ""
      · rw [if_pos hb] at hmatch
        constructor
        · rw [hmatch]
          simp only [reduceCtorEq, false_iff]
          intro hall
          exact hall r (List.mem_cons_self r rs) hb
        · intro i hi
          rw [hmatch] at hi
          injection hi with hi0
          subst hi0
          refine ⟨by simp, by simpa using hb, ?_⟩
          intro j hj1 hj2
          cases j with
          | zero => omega
          | succ j0 =>
            have hj0 : j0 < rs.length := by simpa using hj2
            simpa using ih.1.mp ht (rs.getD j0 []) (getD_mem_of_lt rs j0 hj0)
      · rw [if_neg hb] at hmatch
        constructor
        · rw [hmatch]
          refine ⟨fun _ => ?_, fun _ => rfl⟩
          intro x hx
          rcases List.mem_cons.mp hx with hxr | hxrs
          · rw [hxr]; exact hb
          · exact ih.1.mp ht x hxrs
        · intro i hi
          rw [hmatch] at hi
          exact absurd hi (by simp)

/-- C6 amended: checkout targets the **last** row — scanning from the end,
header row included — whose check-out cell (index 3) is blank, regardless
of whether a check-in is present in that row; it writes the current time
into that cell and changes nothing else.  Only when every row has a
non-blank check-out cell does it answer "You need to check in first!",
writing nothing. -/
theorem C6_checkout_last_blank (ledger : List (List String)) (t : String) :
    (check_out ledger t = none ↔ ∀ r ∈ ledger, r.getD 3 "" ≠ "") ∧
    (∀ i l', check_out ledger t = some (i, l') →
      i < ledger.length ∧ (ledger.getD i []).getD 3 "" = "" ∧
      (∀ j, i < j → j < ledger.length → (ledger.getD j []).getD 3 "" ≠ "") ∧
      l' = ledger.set i ((ledger.getD i []).set 3 t)) := by
  constructor
  · unfold check_out
    cases ht : checkout_target ledger with
    | none =>
      exact ⟨fun _ => (checkout_target_spec ledger).1.mp ht, fun _ => rfl⟩
    | some i =>
      constructor
      · intro h
        exact absurd h (by simp)
      · intro hall
        obtain ⟨hlt, hblank, -⟩ := (checkout_target_spec ledger).2 i ht
        exact absurd hblank (hall (ledger.getD i []) (getD_mem_of_lt ledger i hlt))
  · intro i l' h
    unfold check_out at h
    cases ht : checkout_target ledger with
    | none =>
      rw [ht] at h
      exact absurd h (by simp)
    | some i0 =>
      rw [ht] at h
      simp only [Option.some.injEq, Prod.mk.injEq] at h
      obtain ⟨hi0, hl⟩ := h
      subst hi0
      obtain ⟨hlt, hblank, hmax⟩ := (checkout_target_spec ledger).2 i0 ht
      exact ⟨hlt, hblank, hmax, hl.symm⟩

/-- Witness for `C6_checkout_last_blank`: a ledger whose row 2 has a
check-in and a blank check-out; checkout writes into exactly that row. -/
theorem C6_checkout_last_blank_witness :
    (1 < [["d", "w", "ci", "co", "t", "a"],
          ["1403/05/01", "Sat", "09:00:00 AM", "", "", ""]].length) ∧
    ([["d", "w", "ci", "co", "t", "a"],
      ["1403/05/01", "Sat", "09:00:00 AM", "", "", ""]].getD 1 []).getD 3 "" = "" ∧
    [["d", "w", "ci", "co", "t", "a"],
     ["1403/05/01", "Sat", "09:00:00 AM", "05:00:00 PM", "", ""]]
      = [["d", "w", "ci", "co", "t", "a"],
         ["1403/05/01", "Sat", "09:00:00 AM", "", "", ""]].set 1
          (([["d", "w", "ci", "co", "t", "a"],
             ["1403/05/01", "Sat", "09:00:00 AM", "", "", ""]].getD 1 []).set 3
            "05:00:00 PM") := by
  obtain ⟨h1, h2, -, h4⟩ :=
    (C6_checkout_last_blank
      [["d", "w", "ci", "co", "t", "a"],
       ["1403/05/01", "Sat", "09:00:00 AM", "", "", ""]] "05:00:00 PM").2 1
      [["d", "w", "ci", "co", "t", "a"],
       ["1403/05/01", "Sat", "09:00:00 AM", "05:00:00 PM", "", ""]]
      (by decide)
  exact ⟨h1, h2, h4⟩

/-! ## C10: the two aggregation code paths -/

/-- When the stats loop's stricter date parse succeeds (three parts, all
integers), the hours loop — which needs only two parts and converts only
part 1 — extracts the same month. -/
theorem hoursMonthOf_of_dateOf (r : List String) (ry rm rd : Int)
    (h : dateOf? r = some (ry, rm, rd)) : hoursMonthOf? r = some rm := by
  simp only [dateOf?] at h
  simp only [hoursMonthOf?]
  split_ifs at h ⊢ with hg h3 h2
  · split at h
    · rename_i a b c e0 e1 e2
      simp only [Option.some.injEq, Prod.mk.injEq] at h
      rw [e1]
      exact congrArg some h.2.1
    · exact absurd h (by simp)
  · omega

/-- On rows where the two loops cannot disagree — the stats date parse
succeeds, or the hours loop cannot extract a month either — the per-row
minutes coincide. -/
theorem statsRow_fst_eq_hoursRow (m : Int) (r : List String)
    (hW : hoursMonthOf? r = none ∨ (dateOf? r).isSome = true) :
    (statsRow m r).1 = hoursRow m r := by
  cases hd : dateOf? r with
  | some x =>
    obtain ⟨ry, rm, rd⟩ := x
    have h2 := hoursMonthOf_of_dateOf r ry rm rd hd
    unfold statsRow hoursRow
    rw [hd, h2]
    by_cases hm : rm = m
    · simp [hm]
    · simp [hm]
  | none =>
    rcases hW with hn | hs
    · unfold statsRow hoursRow
      rw [hd, hn]
    · rw [hd] at hs
      simp at hs

/-- Under the same per-row condition the two loops accumulate the same
minute total. -/
theorem aggMinutes_eq_hoursSum (m : Int) (l : List (List String))
    (hW : ∀ r ∈ l, hoursMonthOf? r = none ∨ (dateOf? r).isSome = true) :
    aggMinutes m l = (l.map (fun r => hoursRow m r)).sum := by
  revert hW
  induction l with
  | nil => intro _; rfl
  | cons r t ih =>
    intro hW
    simp only [aggMinutes, List.map_cons, List.sum_cons]
    rw [statsRow_fst_eq_hoursRow m r (hW r (List.mem_cons_self r t))]
    have ht := ih (fun x hx => hW x (List.mem_cons_of_mem r hx))
    simp only [aggMinutes] at ht
    rw [ht]

/-- For a non-negative minute total, Python `int(total_minutes / 60)`
(float truncation) agrees with `total_minutes // 60` (floor division). -/
theorem truncInt_div_sixty (tm : Int) (h : 0 ≤ tm) :
    truncInt ((tm : ℚ) / 60) = tm.fdiv 60 := by
  have hq : (0 : ℚ) ≤ (tm : ℚ) / 60 := by positivity
  have h1 : truncInt ((tm : ℚ) / 60) = ⌊((tm : ℚ) / 60)⌋ := by
    unfold truncInt
    rw [Rat.floor_def]
    exact Int.tdiv_eq_ediv (Rat.num_nonneg.mpr hq) (Int.natCast_nonneg _)
  have h2 : ⌊((tm : ℚ) / 60)⌋ = tm / 60 := by
    simpa using Rat.floor_intCast_div_natCast tm 60
  have h3 : tm.fdiv 60 = tm / 60 := Int.fdiv_eq_ediv tm (by norm_num)
  rw [h1, h2, h3]

/-- C10 counterexample: a row dated `"1403/05"` (only two `/`-separated
parts).  `calculate_monthly_stats` demands `len(date_parts) >= 3` and
shows `"00:00"`, while `calculate_monthly_hours` needs only two parts,
parses the month, and shows `"01:00"` for the same snapshot and month. -/
theorem C10_two_part_date_cex :
    (calculate_monthly_stats
        [["d", "w", "ci", "co", "t", "a"],
         ["1403/05", "Mon", "09:00:00 AM", "10:00:00 AM", "01:00", ""]]
        5 55000 1403 10).toOption.map Stats.total_hours = some "00:00" ∧
    calculate_monthly_hours
        [["d", "w", "ci", "co", "t", "a"],
         ["1403/05", "Mon", "09:00:00 AM", "10:00:00 AM", "01:00", ""]] 5 = "01:00" ∧
    ("00:00" : String) ≠ "01:00" := by
  refine ⟨?_, by decide, by decide⟩
  have h1 : totalMinutes
      [["d", "w", "ci", "co", "t", "a"],
       ["1403/05", "Mon", "09:00:00 AM", "10:00:00 AM", "01:00", ""]] 5 = 0 := by decide
  have h2 : (workedDays
      [["d", "w", "ci", "co", "t", "a"],
       ["1403/05", "Mon", "09:00:00 AM", "10:00:00 AM", "01:00", ""]] 5).card = 0 := by
    decide
  have hbd : countBusinessDaysExc 1403 5 (pyRange1 10) = .ok 9 := by decide
  have hL : get_last_day_of_month 1403 5 = .ok 31 := by decide
  have htbd : countBusinessDaysExc 1403 5 (pyRange1 31) = .ok 27 := by decide
  simp only [calculate_monthly_stats, h1, h2, hbd, hL, htbd, Except.toOption,
    Option.map]
  rw [truncInt_div_sixty 0 (by norm_num)]
  decide

/-- C10 amended: the two displayed HH:MM totals agree on every snapshot in
which no row is accepted by the lenient date parse of
`calculate_monthly_hours` while being rejected by the stricter one of
`calculate_monthly_stats` (three `/`-parts with integer year and day), and
in which the minute total is non-negative (so `int(x)` truncation and `//`
floor division coincide). -/
theorem C10_displays_agree (records : List (List String)) (m : Int) (rate : ℚ)
    (y d : Int) (s : Stats)
    (hW : ∀ r ∈ records.drop 1, hoursMonthOf? r = none ∨ (dateOf? r).isSome = true)
    (hnn : 0 ≤ totalMinutes records m)
    (hok : calculate_monthly_stats records m rate y d = .ok s) :
    s.total_hours = calculate_monthly_hours records m := by
  obtain ⟨L, tbd, -, -, hdisp, -, -, -⟩ := stats_ok_dissect records m rate y d s hok
  have htm : totalMinutes records m
      = ((records.drop 1).map (fun r => hoursRow m r)).sum := by
    unfold totalMinutes
    exact aggMinutes_eq_hoursSum m (records.drop 1) hW
  rw [hdisp]
  unfold calculate_monthly_hours
  rw [← htm, truncInt_div_sixty _ hnn]

/-- Witness for `C10_displays_agree`: both paths show `"08:00"` on a
well-formed one-row snapshot. -/
theorem C10_displays_agree_witness :
    (calculate_monthly_stats
        [["d", "w", "ci", "co", "t", "a"],
         ["1403/05/01", "Mon", "09:00:00 AM", "05:00:00 PM", "08:00", ""]]
        5 55000 1403 10).toOption.map Stats.total_hours
      = some (calculate_monthly_hours
          [["d", "w", "ci", "co", "t", "a"],
           ["1403/05/01", "Mon", "09:00:00 AM", "05:00:00 PM", "08:00", ""]] 5) := by
  cases hcalc : calculate_monthly_stats
      [["d", "w", "ci", "co", "t", "a"],
       ["1403/05/01", "Mon", "09:00:00 AM", "05:00:00 PM", "08:00", ""]]
      5 55000 1403 10 with
  | error e =>
    have hT : (calculate_monthly_stats
        [["d", "w", "ci", "co", "t", "a"],
         ["1403/05/01", "Mon", "09:00:00 AM", "05:00:00 PM", "08:00", ""]]
        5 55000 1403 10).isOk = true := by decide
    rw [hcalc] at hT
    exact absurd hT (by simp [Except.isOk, Except.toBool])
  | ok s =>
    have hd := C10_displays_agree
      [["d", "w", "ci", "co", "t", "a"],
       ["1403/05/01", "Mon", "09:00:00 AM", "05:00:00 PM", "08:00", ""]]
      5 55000 1403 10 s (by decide) (by decide) hcalc
    simp [Except.toOption, hd]
